import Mathlib

/-!
# FriendCrypt: the OpenMLS foreign-function interface

The repository's C sources are two variants of one header, `openmls_ffi.h`
and `openmls-ffi.h` (the bridging header).  Both consist of declarations
only: opaque handle typedefs, the `FfiResult` struct and function
prototypes.  The embedding below represents a header as data (its typedefs,
its struct and its prototypes, in source order) and states the interface
properties as decidable predicates over that data.
-/

namespace FriendCrypt

/-! ## C types as they occur in the headers -/

/-- Type names used by the two headers: the scalar types of `stdint.h`,
`stdbool.h` and `stddef.h`, the seven `typedef struct X X;` handles and the
`FfiResult` struct. -/
inductive CBase
  | void
  | bool
  | char
  | uint8_t
  | uint32_t
  | size_t
  | GroupContext
  | SignerContext
  | CredentialContext
  | KeyPackageContext
  | WelcomeContext
  | StagedWelcomeContext
  | MlsMessageOutContext
  | FfiResult
  deriving DecidableEq, Repr

/-- A C type: a possibly const-qualified named type, or a possibly
const-qualified pointer.  `const KeyPackageContext* const*` is
`ptr false (ptr true (base true KeyPackageContext))`. -/
inductive CType
  | base (isConst : Bool) (b : CBase)
  | ptr (isConst : Bool) (pointee : CType)
  deriving DecidableEq, Repr

/-- One parameter of a prototype. -/
structure Param where
  name : String
  type : CType
  deriving DecidableEq, Repr

/-- One function prototype. -/
structure FnDecl where
  name : String
  ret : CType
  params : List Param
  deriving DecidableEq, Repr

/-- A header: the opaque typedefs, the fields of the `FfiResult` struct and
the prototypes, each in source order. -/
structure Header where
  typedefs : List CBase
  ffiResultFields : List Param
  fns : List FnDecl
  deriving DecidableEq, Repr

/-! ### Abbreviations for the types written in the headers -/

/-- Unqualified named type `T`. -/
abbrev val (b : CBase) : CType := .base false b
/-- Pointer `T*`. -/
abbrev mutPtr (b : CBase) : CType := .ptr false (.base false b)
/-- Pointer `const T*`. -/
abbrev constPtr (b : CBase) : CType := .ptr false (.base true b)
/-- The return type `FfiResult`. -/
abbrev ffiResult : CType := val .FfiResult
/-- The return type `void`. -/
abbrev cvoid : CType := val .void
/-- The type `uint8_t**` of a byte-buffer out-parameter. -/
abbrev bytesOut : CType := .ptr false (.ptr false (.base false .uint8_t))
/-- The type `size_t*` of a length out-parameter. -/
abbrev lenOut : CType := mutPtr .size_t
/-- The type `const KeyPackageContext* const*` of `key_packages`. -/
abbrev constPtrArray (b : CBase) : CType := .ptr false (.ptr true (.base true b))

/-! ## The declarations shared by both variants -/

/-- Fields of `typedef struct { bool success; char* error_message; } FfiResult;`. -/
def ffiResultStruct : List Param :=
  [⟨"success", val .bool⟩, ⟨"error_message", mutPtr .char⟩]

/-- Prototype `void free_error_message(FfiResult result);`. -/
def free_error_message : FnDecl :=
  ⟨"free_error_message", cvoid, [⟨"result", val .FfiResult⟩]⟩

/-- Prototype `uint32_t get_default_ciphersuite(void);`. -/
def get_default_ciphersuite : FnDecl :=
  ⟨"get_default_ciphersuite", val .uint32_t, []⟩

/-- Prototype `void free_credential(CredentialContext context);`. -/
def free_credential : FnDecl :=
  ⟨"free_credential", cvoid, [⟨"context", val .CredentialContext⟩]⟩

/-- Prototype `void free_signer(SignerContext context);`. -/
def free_signer : FnDecl :=
  ⟨"free_signer", cvoid, [⟨"context", val .SignerContext⟩]⟩

/-- Prototype `void free_key_package(KeyPackageContext context);`. -/
def free_key_package : FnDecl :=
  ⟨"free_key_package", cvoid, [⟨"context", val .KeyPackageContext⟩]⟩

/-- Prototype of `create_mls_group`. -/
def create_mls_group : FnDecl :=
  ⟨"create_mls_group", ffiResult,
    [⟨"signer", constPtr .SignerContext⟩,
     ⟨"credential", constPtr .CredentialContext⟩,
     ⟨"out_group", mutPtr .GroupContext⟩]⟩

/-- Prototype `void free_group(GroupContext context);`. -/
def free_group : FnDecl :=
  ⟨"free_group", cvoid, [⟨"context", val .GroupContext⟩]⟩

/-- Prototype of `add_members`. -/
def add_members : FnDecl :=
  ⟨"add_members", ffiResult,
    [⟨"group", mutPtr .GroupContext⟩,
     ⟨"signer", constPtr .SignerContext⟩,
     ⟨"key_packages", constPtrArray .KeyPackageContext⟩,
     ⟨"key_package_count", val .size_t⟩,
     ⟨"out_welcome", mutPtr .WelcomeContext⟩]⟩

/-- Prototype of `merge_pending_commit`. -/
def merge_pending_commit : FnDecl :=
  ⟨"merge_pending_commit", ffiResult, [⟨"group", mutPtr .GroupContext⟩]⟩

/-- Prototype of `export_ratchet_tree`. -/
def export_ratchet_tree : FnDecl :=
  ⟨"export_ratchet_tree", ffiResult,
    [⟨"group", constPtr .GroupContext⟩,
     ⟨"out_data", bytesOut⟩,
     ⟨"out_len", lenOut⟩]⟩

/-- Prototype of `serialize_welcome`. -/
def serialize_welcome : FnDecl :=
  ⟨"serialize_welcome", ffiResult,
    [⟨"welcome", constPtr .WelcomeContext⟩,
     ⟨"out_data", bytesOut⟩,
     ⟨"out_len", lenOut⟩]⟩

/-- Prototype `void free_welcome(WelcomeContext context);`. -/
def free_welcome : FnDecl :=
  ⟨"free_welcome", cvoid, [⟨"context", val .WelcomeContext⟩]⟩

/-- Prototype `void free_buffer(uint8_t* buffer, size_t len);`. -/
def free_buffer : FnDecl :=
  ⟨"free_buffer", cvoid, [⟨"buffer", mutPtr .uint8_t⟩, ⟨"len", val .size_t⟩]⟩

/-- Prototype of `deserialize_welcome`. -/
def deserialize_welcome : FnDecl :=
  ⟨"deserialize_welcome", ffiResult,
    [⟨"data", constPtr .uint8_t⟩,
     ⟨"data_len", val .size_t⟩,
     ⟨"out_welcome", mutPtr .WelcomeContext⟩]⟩

/-- Prototype of `create_staged_welcome`. -/
def create_staged_welcome : FnDecl :=
  ⟨"create_staged_welcome", ffiResult,
    [⟨"welcome", constPtr .WelcomeContext⟩,
     ⟨"ratchet_tree_data", constPtr .uint8_t⟩,
     ⟨"ratchet_tree_len", val .size_t⟩,
     ⟨"out_staged_welcome", mutPtr .StagedWelcomeContext⟩]⟩

/-- Prototype `void free_staged_welcome(StagedWelcomeContext context);`. -/
def free_staged_welcome : FnDecl :=
  ⟨"free_staged_welcome", cvoid, [⟨"context", val .StagedWelcomeContext⟩]⟩

/-- Prototype of `complete_group_join`. -/
def complete_group_join : FnDecl :=
  ⟨"complete_group_join", ffiResult,
    [⟨"staged_welcome", mutPtr .StagedWelcomeContext⟩,
     ⟨"out_group", mutPtr .GroupContext⟩]⟩

/-! ## Declarations of `openmls_ffi.h` only -/

/-- Prototype of `generate_credential` in `openmls_ffi.h`. -/
def generate_credential : FnDecl :=
  ⟨"generate_credential", ffiResult,
    [⟨"identity", constPtr .char⟩,
     ⟨"out_credential", mutPtr .CredentialContext⟩,
     ⟨"out_signer", mutPtr .SignerContext⟩]⟩

/-- Prototype of `generate_key_package` in `openmls_ffi.h`. -/
def generate_key_package : FnDecl :=
  ⟨"generate_key_package", ffiResult,
    [⟨"signer", constPtr .SignerContext⟩,
     ⟨"credential", constPtr .CredentialContext⟩,
     ⟨"out_key_package", mutPtr .KeyPackageContext⟩]⟩

/-- Prototype `void free_message_out(MlsMessageOutContext context);`. -/
def free_message_out : FnDecl :=
  ⟨"free_message_out", cvoid, [⟨"context", val .MlsMessageOutContext⟩]⟩

/-- Prototype of `encrypt_message`. -/
def encrypt_message : FnDecl :=
  ⟨"encrypt_message", ffiResult,
    [⟨"group", mutPtr .GroupContext⟩,
     ⟨"signer", constPtr .SignerContext⟩,
     ⟨"message_data", constPtr .uint8_t⟩,
     ⟨"message_len", val .size_t⟩,
     ⟨"out_data", bytesOut⟩,
     ⟨"out_len", lenOut⟩]⟩

/-- Prototype of `decrypt_message`. -/
def decrypt_message : FnDecl :=
  ⟨"decrypt_message", ffiResult,
    [⟨"group", mutPtr .GroupContext⟩,
     ⟨"message_data", constPtr .uint8_t⟩,
     ⟨"message_len", val .size_t⟩,
     ⟨"out_data", bytesOut⟩,
     ⟨"out_len", lenOut⟩]⟩

/-- Prototype of `send_message`. -/
def send_message : FnDecl :=
  ⟨"send_message", ffiResult,
    [⟨"group", mutPtr .GroupContext⟩,
     ⟨"message_text", constPtr .char⟩,
     ⟨"out_data", bytesOut⟩,
     ⟨"out_len", lenOut⟩]⟩

/-- Prototype of `serialize_key_package`. -/
def serialize_key_package : FnDecl :=
  ⟨"serialize_key_package", ffiResult,
    [⟨"key_package", constPtr .KeyPackageContext⟩,
     ⟨"out_data", bytesOut⟩,
     ⟨"out_len", lenOut⟩]⟩

/-- Prototype of `deserialize_key_package`. -/
def deserialize_key_package : FnDecl :=
  ⟨"deserialize_key_package", ffiResult,
    [⟨"data", constPtr .uint8_t⟩,
     ⟨"data_len", val .size_t⟩,
     ⟨"out_key_package", mutPtr .KeyPackageContext⟩]⟩

/-! ## Declarations of `openmls-ffi.h` only -/

/-- Prototype of `generate_credential` in `openmls-ffi.h`, with the explicit
`uint32_t ciphersuite_id`. -/
def generate_credential_bridging : FnDecl :=
  ⟨"generate_credential", ffiResult,
    [⟨"identity", constPtr .char⟩,
     ⟨"ciphersuite_id", val .uint32_t⟩,
     ⟨"out_credential", mutPtr .CredentialContext⟩,
     ⟨"out_signer", mutPtr .SignerContext⟩]⟩

/-- Prototype of `generate_key_package` in `openmls-ffi.h`, with the explicit
`uint32_t ciphersuite_id`. -/
def generate_key_package_bridging : FnDecl :=
  ⟨"generate_key_package", ffiResult,
    [⟨"ciphersuite_id", val .uint32_t⟩,
     ⟨"signer", constPtr .SignerContext⟩,
     ⟨"credential", constPtr .CredentialContext⟩,
     ⟨"out_key_package", mutPtr .KeyPackageContext⟩]⟩

/-! ## The two headers -/

/-- The header `src/openmls_ffi.h`. -/
def openmls_ffi_h : Header where
  typedefs :=
    [.GroupContext, .SignerContext, .CredentialContext, .KeyPackageContext,
     .WelcomeContext, .StagedWelcomeContext, .MlsMessageOutContext]
  ffiResultFields := ffiResultStruct
  fns :=
    [free_error_message, get_default_ciphersuite, generate_credential,
     free_credential, free_signer, generate_key_package, free_key_package,
     create_mls_group, free_group, add_members, merge_pending_commit,
     export_ratchet_tree, serialize_welcome, free_welcome, free_message_out,
     free_buffer, deserialize_welcome, create_staged_welcome,
     free_staged_welcome, complete_group_join, encrypt_message,
     decrypt_message, send_message, serialize_key_package,
     deserialize_key_package]

/-- The header `src/openmls-ffi.h` (the bridging header). -/
def openmls_ffi_bridging_h : Header where
  typedefs :=
    [.GroupContext, .SignerContext, .CredentialContext, .KeyPackageContext,
     .WelcomeContext, .StagedWelcomeContext]
  ffiResultFields := ffiResultStruct
  fns :=
    [free_error_message, get_default_ciphersuite, generate_credential_bridging,
     free_credential, free_signer, generate_key_package_bridging,
     free_key_package, create_mls_group, free_group, add_members,
     merge_pending_commit, export_ratchet_tree, serialize_welcome, free_welcome,
     free_buffer, deserialize_welcome, create_staged_welcome,
     free_staged_welcome, complete_group_join]

/-- Both header variants. -/
def headers : List Header := [openmls_ffi_h, openmls_ffi_bridging_h]

/-- The six handle types of the interface. -/
def handleTypes : List CBase :=
  [.GroupContext, .SignerContext, .CredentialContext, .KeyPackageContext,
   .WelcomeContext, .StagedWelcomeContext]

/-! ## Reading a prototype -/

/-- Whether the characters `p` start the name `s`. -/
def hasPrefix (p s : String) : Bool := p.data.isPrefixOf s.data

/-- The named type at the bottom of a C type (`uint8_t` for `uint8_t**`). -/
def CType.root : CType → CBase
  | .base _ b => b
  | .ptr _ t => t.root

/-- A pointer whose pointee is const-qualified (`const T*`, `const T* const*`). -/
def CType.pointsToConst : CType → Bool
  | .ptr _ (.base c _) => c
  | .ptr _ (.ptr c _) => c
  | .base _ _ => false

/-- An out-parameter: named `out_...` and a pointer to a non-const pointee. -/
def Param.isOut (p : Param) : Bool :=
  hasPrefix "out_" p.name && (match p.type with
    | .ptr _ (.base c _) => !c
    | .ptr _ (.ptr c _) => !c
    | .base _ _ => false)

/-- A release function: returns `void` and is named `free_...`. -/
def FnDecl.isRelease (d : FnDecl) : Bool :=
  hasPrefix "free_" d.name && decide (d.ret = cvoid)

/-- The function `d` produces a handle of type `b`: it has an out-parameter
of type `b*`. -/
def FnDecl.produces (b : CBase) (d : FnDecl) : Bool :=
  d.params.any fun p => p.isOut && decide (p.type = mutPtr b)

/-- The function `d` releases a handle of type `b`: it is a release function
whose parameters are exactly one `b`, taken by value. -/
def FnDecl.releases (b : CBase) (d : FnDecl) : Bool :=
  d.isRelease && decide (d.params.map Param.type = [val b])

/-- Names of the functions of `h` that produce a `b`. -/
def Header.producers (h : Header) (b : CBase) : List String :=
  (h.fns.filter (FnDecl.produces b)).map FnDecl.name

/-- Names of the functions of `h` that release a `b`. -/
def Header.releasers (h : Header) (b : CBase) : List String :=
  (h.fns.filter (FnDecl.releases b)).map FnDecl.name

/-- The prototypes of `h` with the given name. -/
def Header.lookup (h : Header) (n : String) : List FnDecl :=
  h.fns.filter fun d => decide (d.name = n)

/-- The parameters of `d` that carry data into the call: all but the
out-parameters. -/
def FnDecl.inputs (d : FnDecl) : List Param := d.params.filter fun p => !p.isOut

/-- The out-parameters of `d`, in order: what a successful call hands back. -/
def FnDecl.outputs (d : FnDecl) : List Param := d.params.filter Param.isOut

/-- The function `d` outputs bytes: it has an out-parameter over `uint8_t`. -/
def FnDecl.outputsBytes (d : FnDecl) : Bool :=
  d.params.any fun p => p.isOut && decide (p.type.root = .uint8_t)

/-- An input of byte-buffer shape: `const uint8_t*` data or its `size_t` length. -/
def Param.isBytesIn (p : Param) : Bool :=
  decide (p.type = constPtr .uint8_t) || decide (p.type = val .size_t)

/-- A pointer input over the handle type `b` (`b*`, `const b*`, `const b* const*`). -/
def Param.isHandleIn (b : CBase) (p : Param) : Bool :=
  !p.isOut && decide (p.type.root = b) && decide (p.type ≠ .base false b) &&
    decide (p.type ≠ .base true b)

/-- Names of the functions of `h` satisfying `f`, in source order. -/
def Header.namesWhere (h : Header) (f : FnDecl → Bool) : List String :=
  (h.fns.filter f).map FnDecl.name

/-- The `serialize_*` functions of `h` for the handle type `b`: one `const b*`
input, bytes out. -/
def Header.serializers (h : Header) (b : CBase) : List String :=
  h.namesWhere fun d => hasPrefix "serialize_" d.name &&
    decide (d.inputs.map Param.type = [constPtr b]) && d.outputsBytes

/-- The `deserialize_*` functions of `h` for the handle type `b`: bytes in,
a `b` produced. -/
def Header.deserializers (h : Header) (b : CBase) : List String :=
  h.namesWhere fun d => hasPrefix "deserialize_" d.name &&
    decide (d.inputs.map Param.type = [constPtr .uint8_t, val .size_t]) && d.produces b

/-- The functions of `h` that turn a `b` into bytes: their only input is one
pointer to a `b` and they output bytes. -/
def Header.toBytes (h : Header) (b : CBase) : List String :=
  h.namesWhere fun d => decide (d.inputs.length = 1) && d.inputs.all (Param.isHandleIn b) &&
    d.outputsBytes

/-- The functions of `h` that turn bytes into a `b`: all their inputs are
byte-buffer inputs, there is at least one, and they produce a `b`. -/
def Header.fromBytes (h : Header) (b : CBase) : List String :=
  h.namesWhere fun d => !d.inputs.isEmpty && d.inputs.all Param.isBytesIn && d.produces b

/-- The handle types of `h` that have both a `serialize_*` and a
`deserialize_*` function. -/
def Header.serializable (h : Header) : List CBase :=
  handleTypes.filter fun b => !(h.serializers b).isEmpty && !(h.deserializers b).isEmpty

/-- The non-release functions of `h` that take a group as input. -/
def Header.groupTaking (h : Header) : List FnDecl :=
  h.fns.filter fun d => !d.isRelease && d.params.any (Param.isHandleIn .GroupContext)

/-- The type under which `d` takes its group input, when it has one. -/
def FnDecl.groupParamTypes (d : FnDecl) : List CType :=
  (d.params.filter (Param.isHandleIn .GroupContext)).map Param.type

/-! ## Interface properties as predicates over a header -/

/-- Every handle type of `h` has exactly one producer and exactly one
release function. -/
def Header.OneProducerOneRelease (h : Header) : Prop :=
  ∀ b ∈ handleTypes, (h.producers b).length = 1 ∧ (h.releasers b).length = 1

instance (h : Header) : Decidable h.OneProducerOneRelease := by
  unfold Header.OneProducerOneRelease; infer_instance

/-- Every function of `h` other than the `free_*` functions and
`get_default_ciphersuite` returns `FfiResult`. -/
def Header.FallibleReturnFfiResult (h : Header) : Prop :=
  ∀ d ∈ h.fns, hasPrefix "free_" d.name = false → d.name ≠ "get_default_ciphersuite" →
    d.ret = ffiResult

instance (h : Header) : Decidable h.FallibleReturnFfiResult := by
  unfold Header.FallibleReturnFfiResult; infer_instance

/-- Every function of `h` that outputs bytes has exactly the out-parameters
`uint8_t** out_data, size_t* out_len`, and they are its last two parameters. -/
def Header.BytesOutAsPair (h : Header) : Prop :=
  ∀ d ∈ h.fns, d.outputsBytes = true →
    d.outputs = [⟨"out_data", bytesOut⟩, ⟨"out_len", lenOut⟩] ∧
    d.params = d.inputs ++ [⟨"out_data", bytesOut⟩, ⟨"out_len", lenOut⟩]

instance (h : Header) : Decidable h.BytesOutAsPair := by
  unfold Header.BytesOutAsPair; infer_instance

/-- Key packages and welcomes are the only serializable handle types of `h`,
and no function of `h` turns a group, signer or credential into bytes or
bytes into one of them. -/
def Header.OnlyKeyPackagesAndWelcomesSerialized (h : Header) : Prop :=
  h.serializable = [.KeyPackageContext, .WelcomeContext] ∧
  ∀ b ∈ [CBase.GroupContext, CBase.SignerContext, CBase.CredentialContext],
    h.toBytes b = [] ∧ h.fromBytes b = []

instance (h : Header) : Decidable h.OnlyKeyPackagesAndWelcomesSerialized := by
  unfold Header.OnlyKeyPackagesAndWelcomesSerialized; infer_instance

/-- No function of `h` takes a ciphersuite id: no parameter is named
`ciphersuite_id` and none is a `uint32_t`. -/
def Header.TakesNoCiphersuite (h : Header) : Prop :=
  ∀ d ∈ h.fns, ∀ p ∈ d.params, p.name ≠ "ciphersuite_id" ∧ p.type.root ≠ .uint32_t

instance (h : Header) : Decidable h.TakesNoCiphersuite := by
  unfold Header.TakesNoCiphersuite; infer_instance

/-- Among the group-taking functions of `h`, `export_ratchet_tree` takes
the group as `const GroupContext*` and every other one as `GroupContext*`. -/
def Header.GroupConstOnlyForExport (h : Header) : Prop :=
  ∀ d ∈ h.groupTaking,
    (d.name = "export_ratchet_tree" → d.groupParamTypes = [constPtr .GroupContext]) ∧
    (d.name ≠ "export_ratchet_tree" → d.groupParamTypes = [mutPtr .GroupContext])

instance (h : Header) : Decidable h.GroupConstOnlyForExport := by
  unfold Header.GroupConstOnlyForExport; infer_instance

/-- Every signer, credential, key-package and welcome input of a
non-release function of `h` is a pointer to const. -/
def Header.HandleInputsConst (h : Header) : Prop :=
  ∀ d ∈ h.fns, d.isRelease = false → ∀ p ∈ d.inputs,
    p.type.root ∈ [CBase.SignerContext, CBase.CredentialContext, CBase.KeyPackageContext,
      CBase.WelcomeContext] → p.type.pointsToConst = true

instance (h : Header) : Decidable h.HandleInputsConst := by
  unfold Header.HandleInputsConst; infer_instance

/-! ## The operations behind the prototypes

The headers declare the operations; their bodies are not part of the C
sources.  The definitions of this section model the group state machine the
prototypes front, as the specification describes it, in state-passing form:
every operation receives the state it works on and hands back the state it
leaves.
-/

/-- A byte string. -/
abbrev Bytes := List (Fin 256)

/-- Modelled from the spec: the error kinds of §7 (the bodies that raise
them are not in the C sources). -/
inductive MlsError
  | CiphersuiteUnsupported
  | SignatureError
  | InvalidKeyPackage
  | ExpiredKeyPackage
  | StaleEpoch
  | TreeMismatch
  | DecryptionError
  | AuthenticationFailure
  | EpochMismatch
  | UnknownSender
  | ReplayDetected
  | SerializationError
  | NoPendingCommit
  | ResourceMisuse
  deriving DecidableEq, Repr

/-- Modelled from the spec: the Ciphersuite Provider of §1 and §2, the
external collaborator that supplies key derivation, AEAD, signatures,
public-key encryption and hashing.  It is a parameter of every operation.
Two laws are assumed of it: AEAD decryption under the key used for
encryption returns the plaintext, and a signature made with a private key
verifies under its public key. -/
structure Provider where
  /-- Per-message key from the epoch secret, the sender leaf and the generation. -/
  deriveKey : Nat → Nat → Nat → Nat
  /-- AEAD encryption under a key. -/
  aeadSeal : Nat → Bytes → Bytes
  /-- AEAD decryption with tag verification. -/
  aeadOpen : Nat → Bytes → Option Bytes
  /-- The public half of a private key. -/
  publicKey : Nat → Nat
  /-- Signature of a payload under a private signing key. -/
  sign : Nat → List Nat → Nat
  /-- Verification of a signature under a public verification key. -/
  verify : Nat → List Nat → Nat → Bool
  /-- Encryption of a group secret to a recipient's init public key. -/
  wrap : Nat → Nat → Nat
  /-- Hash of a tree's public content. -/
  hash : List Nat → Nat
  /-- Decrypting what was encrypted under the same key gives the plaintext back. -/
  aead_roundtrip : ∀ k m, aeadOpen k (aeadSeal k m) = some m
  /-- A signature verifies under the public half of the key that made it. -/
  verify_sign : ∀ sk payload, verify (publicKey sk) payload (sign sk payload) = true

/-- Modelled from the spec: a credential of §3 (identity string and the
public half of the signing keypair). -/
structure Credential where
  identity : String
  verificationKey : Nat
  deriving DecidableEq, Repr

/-- Modelled from the spec: the Identity of §3, a credential with its
private signing key. -/
structure Identity where
  credential : Credential
  signingKey : Nat
  deriving DecidableEq, Repr

/-- Modelled from the spec: the KeyPackage of §3 (init public key,
credential, ciphersuite id, validity lifetime, self-signature). -/
structure KeyPackage where
  initKey : Nat
  credential : Credential
  ciphersuite : Nat
  notAfter : Nat
  signature : Nat
  deriving DecidableEq, Repr

/-- Modelled from the spec: the payload a key package's self-signature covers
(its init key, credential key, ciphersuite id and lifetime, §3). -/
def KeyPackage.payload (kp : KeyPackage) : List Nat :=
  [kp.initKey, kp.credential.verificationKey, kp.ciphersuite, kp.notAfter]

/-- Modelled from the spec: the Commit of §3, a signed transition from
epoch N to N+1: the sender's leaf, the target epoch, the add proposals, the
path update, the declared tree hash of the new tree and the sender's
signature. -/
structure Commit where
  sender : Nat
  targetEpoch : Nat
  adds : List KeyPackage
  pathSecret : Nat
  treeHash : Nat
  signature : Nat
  deriving DecidableEq, Repr

/-- Modelled from the spec: the payload a commit's signature covers (§3). -/
def Commit.payload (sender targetEpoch pathSecret treeHash : Nat) (adds : List KeyPackage) :
    List Nat :=
  sender :: targetEpoch :: pathSecret :: treeHash :: adds.map KeyPackage.initKey

/-- Modelled from the spec: the Welcome of §3, one recipient's bootstrap of
the post-commit group: the new epoch secret encrypted to the recipient's init
key, with the epoch and the ratchet-tree reference. -/
structure Welcome where
  epoch : Nat
  initKey : Nat
  ciphertext : Nat
  treeHash : Nat
  deriving DecidableEq, Repr

/-- Modelled from the spec: the Group of §3, one member's view of a group.
The ratchet tree is represented by its leaves (`roster`, leaf index to
credential) and its root secret (`epochSecret`); `generation` is this
member's sender generation counter, `consumed` the (sender leaf, generation)
pairs already decrypted in this epoch and `lookahead` the configured size of
the lookahead window of §4.6. -/
structure Group where
  epoch : Nat
  roster : List Credential
  ownLeaf : Nat
  epochSecret : Nat
  pendingCommit : Option Commit
  generation : Nat
  consumed : List (Nat × Nat)
  lookahead : Nat
  deriving DecidableEq, Repr

/-- Modelled from the spec: the Message of §3 (sender leaf index, epoch
number, generation counter, ciphertext) with the signature of its framing. -/
structure Message where
  sender : Nat
  epoch : Nat
  generation : Nat
  ciphertext : Bytes
  signature : Nat
  deriving DecidableEq, Repr

/-- The result of an operation that may change the group: the group as the
call leaves it, and either the output or the error. -/
structure Outcome (α : Type) where
  group : Group
  result : Except MlsError α

/-- Whether the call succeeded. -/
def Outcome.success {α : Type} (o : Outcome α) : Bool :=
  match o.result with
  | .ok _ => true
  | .error _ => false

/-- Modelled from the spec: the tree hash of §3, the hash every member
computes over the tree's leaves. -/
def treeHash (P : Provider) (roster : List Credential) : Nat :=
  P.hash (roster.map Credential.verificationKey)

/-- Modelled from the spec: `create` of §4.3: a new group at epoch 0 whose
sole leaf is the founder, with the epoch-0 secret drawn from the founder's
fresh random material and the lookahead window as configured. -/
def create (founder : Identity) (entropy lookahead : Nat) : Group where
  epoch := 0
  roster := [founder.credential]
  ownLeaf := 0
  epochSecret := entropy
  pendingCommit := none
  generation := 0
  consumed := []
  lookahead := lookahead

/-- Modelled from the spec: the key-package check of §4.4 with the
single-use rule of §3 and §8: the self-signature must verify
(`InvalidKeyPackage`), the lifetime must not have expired
(`ExpiredKeyPackage`), and a key package already consumed by a successful
add, or whose holder is already a leaf of the tree, is rejected
(`InvalidKeyPackage`). -/
def checkKeyPackage (P : Provider) (now : Nat) (roster : List Credential)
    (ledger : List KeyPackage) (kp : KeyPackage) : Except MlsError Unit :=
  if !P.verify kp.credential.verificationKey kp.payload kp.signature then
    .error .InvalidKeyPackage
  else if kp.notAfter < now then
    .error .ExpiredKeyPackage
  else if kp ∈ ledger then
    .error .InvalidKeyPackage
  else if kp.credential ∈ roster then
    .error .InvalidKeyPackage
  else
    .ok ()

/-- Modelled from the spec: the key-package check of §4.4 over the whole
list, stopping at the first failure; each accepted key package counts as
consumed, and its holder as a leaf, for the ones after it. -/
def checkKeyPackages (P : Provider) (now : Nat) :
    List Credential → List KeyPackage → List KeyPackage → Except MlsError Unit
  | _, _, [] => .ok ()
  | roster, ledger, kp :: rest =>
    match checkKeyPackage P now roster ledger kp with
    | .error e => .error e
    | .ok () => checkKeyPackages P now (roster ++ [kp.credential]) (kp :: ledger) rest

/-- The result of `addMembers`: the record of consumed key packages and the
group as the call leaves them, and either the commit with its welcomes or the
error. -/
structure AddMembersOutcome where
  ledger : List KeyPackage
  group : Group
  result : Except MlsError (Commit × List Welcome)

/-- Modelled from the spec: `addMembers` of §4.4 (the body of `add_members`
is not in the C sources).  An empty list is rejected as a null input
(`ResourceMisuse`, §7) and every key package is checked; on success a leaf
is allocated per key package, the commit for epoch+1 is built from the fresh
path secret and signed by the signer, and one Welcome per added member is
encrypted to that member's init key.  Commit and welcomes are returned
together or not at all.  The group is not changed; the key packages of a
successful call are recorded as consumed in `ledger`, the single-use record
that §3 and §8 require, which a failing call leaves as it was. -/
def addMembers (P : Provider) (now entropy : Nat) (ledger : List KeyPackage) (g : Group)
    (signer : Identity) (keyPackages : List KeyPackage) : AddMembersOutcome :=
  if keyPackages.isEmpty then
    ⟨ledger, g, .error .ResourceMisuse⟩
  else
    match checkKeyPackages P now g.roster ledger keyPackages with
    | .error e => ⟨ledger, g, .error e⟩
    | .ok () =>
      let newTreeHash := treeHash P (g.roster ++ keyPackages.map KeyPackage.credential)
      let commit : Commit :=
        { sender := g.ownLeaf
          targetEpoch := g.epoch + 1
          adds := keyPackages
          pathSecret := entropy
          treeHash := newTreeHash
          signature := P.sign signer.signingKey
            (Commit.payload g.ownLeaf (g.epoch + 1) entropy newTreeHash keyPackages) }
      let welcomes : List Welcome := keyPackages.map fun kp =>
        { epoch := g.epoch + 1
          initKey := kp.initKey
          ciphertext := P.wrap kp.initKey entropy
          treeHash := newTreeHash }
      ⟨keyPackages ++ ledger, g, .ok (commit, welcomes)⟩

/-- Modelled from the spec: the post-commit state of §4.3: the next epoch,
the added leaves, the new epoch secret from the path update, an empty
pending-commit buffer and fresh per-epoch counters. -/
def Group.advance (g : Group) (c : Commit) : Group where
  epoch := g.epoch + 1
  roster := g.roster ++ c.adds.map KeyPackage.credential
  ownLeaf := g.ownLeaf
  epochSecret := c.pathSecret
  pendingCommit := none
  generation := 0
  consumed := []
  lookahead := g.lookahead

/-- Modelled from the spec: `applyCommit` of §4.3: the commit must target
`group.epoch + 1` (`StaleEpoch`), its signature must verify against the
sender's known credential (`SignatureError`), and the tree hash recomputed
over the updated tree must agree with the declared one (`TreeMismatch`); then
the group moves to the post-commit state.  A rejected commit leaves the
group at its prior epoch. -/
def applyCommit (P : Provider) (g : Group) (c : Commit) : Except MlsError Group :=
  if c.targetEpoch ≠ g.epoch + 1 then
    .error .StaleEpoch
  else
    match g.roster[c.sender]? with
    | none => .error .SignatureError
    | some credential =>
      if !P.verify credential.verificationKey
          (Commit.payload c.sender c.targetEpoch c.pathSecret c.treeHash c.adds) c.signature then
        .error .SignatureError
      else if treeHash P (g.roster ++ c.adds.map KeyPackage.credential) ≠ c.treeHash then
        .error .TreeMismatch
      else
        .ok (g.advance c)

/-- Modelled from the spec: `encrypt` of §4.6 (the body of `encrypt_message`
is not in the C sources): the per-message key is derived from the current
epoch secret at the sender's leaf and the sender's generation counter, the
plaintext is AEAD-encrypted, the framing is signed by the signer, and the
generation counter is incremented. -/
def encrypt (P : Provider) (g : Group) (signer : Identity) (plaintext : Bytes) :
    Group × Message :=
  let key := P.deriveKey g.epochSecret g.ownLeaf g.generation
  ({ g with generation := g.generation + 1 },
   { sender := g.ownLeaf
     epoch := g.epoch
     generation := g.generation
     ciphertext := P.aeadSeal key plaintext
     signature := P.sign signer.signingKey [g.ownLeaf, g.epoch, g.generation] })

/-- Modelled from the spec: the receiver's ratchet position for a sender
(§4.6): one past the highest generation consumed from that sender in this
epoch, 0 when none was. -/
def Group.position (g : Group) (sender : Nat) : Nat :=
  ((g.consumed.filter fun e => e.1 = sender).map fun e => e.2 + 1).foldl max 0

/-- Modelled from the spec: `decrypt` of §4.6 (the body of `decrypt_message`
is not in the C sources): the sender leaf is located (`UnknownSender`), the
epoch compared (`EpochMismatch`), a generation already consumed for that
sender is rejected (`ReplayDetected`), and so is a generation that lies
`lookahead` or more steps past the receiver's position for that sender, the
bound of the lookahead window; the per-message key is then derived as the
sender derived it and the AEAD tag verified (`AuthenticationFailure`).  On
success the generation is recorded as consumed.  The spec attaches the
window to the replay rule and names no error kind of its own for it, so a
generation beyond the window is reported as `ReplayDetected`. -/
def decrypt (P : Provider) (g : Group) (msg : Message) : Outcome Bytes :=
  if g.roster.length ≤ msg.sender then
    ⟨g, .error .UnknownSender⟩
  else if msg.epoch ≠ g.epoch then
    ⟨g, .error .EpochMismatch⟩
  else if (msg.sender, msg.generation) ∈ g.consumed then
    ⟨g, .error .ReplayDetected⟩
  else if g.position msg.sender + g.lookahead ≤ msg.generation then
    ⟨g, .error .ReplayDetected⟩
  else
    match P.aeadOpen (P.deriveKey g.epochSecret msg.sender msg.generation) msg.ciphertext with
    | none => ⟨g, .error .AuthenticationFailure⟩
    | some plaintext =>
      ⟨{ g with consumed := (msg.sender, msg.generation) :: g.consumed }, .ok plaintext⟩

/-- Modelled from the spec: two views of one two-member group at one epoch
(§8), the sender's and the receiver's.  Both hold the same epoch, roster (of
two leaves) and epoch secret, they sit at different leaves, and the receiver
has consumed only generations the sender has already used. -/
structure TwoMemberGroup (sender receiver : Group) : Prop where
  epoch_eq : sender.epoch = receiver.epoch
  roster_eq : sender.roster = receiver.roster
  secret_eq : sender.epochSecret = receiver.epochSecret
  two_members : sender.roster.length = 2
  sender_leaf : sender.ownLeaf < 2
  receiver_leaf : receiver.ownLeaf < 2
  distinct : sender.ownLeaf ≠ receiver.ownLeaf
  consumed_sent : ∀ n, (sender.ownLeaf, n) ∈ receiver.consumed → n < sender.generation

/-! ### A toy provider and the scenario of §8 -/

/-- A toy ciphersuite provider: the key is prepended as the tag of a
ciphertext, the public key is the private key plus one, a signature is the
public key added to the payload's sum. -/
def toyProvider : Provider where
  deriveKey secret leaf generation := secret + 7 * leaf + 11 * generation
  aeadSeal k m := (Fin.ofNat k) :: m
  aeadOpen k c :=
    match c with
    | [] => none
    | t :: m => if t = Fin.ofNat k then some m else none
  publicKey sk := sk + 1
  sign sk payload := sk + 1 + payload.sum
  verify pk payload s := s == pk + payload.sum
  wrap k secret := k + secret
  hash l := l.foldl (fun acc x => 31 * acc + x) 7
  aead_roundtrip := by intro k m; simp
  verify_sign := by intro sk payload; simp

/-- An identity of the toy provider with the given name and signing key. -/
def toyIdentity (name : String) (signingKey : Nat) : Identity :=
  ⟨⟨name, toyProvider.publicKey signingKey⟩, signingKey⟩

/-- A key package of the toy provider, valid until `notAfter`, signed by its
holder. -/
def toyKeyPackage (holder : Identity) (initKey notAfter : Nat) : KeyPackage :=
  let unsigned : KeyPackage :=
    { initKey := initKey, credential := holder.credential, ciphersuite := 1,
      notAfter := notAfter, signature := 0 }
  { unsigned with signature := toyProvider.sign holder.signingKey unsigned.payload }

/-- Alice, the founder in the scenarios. -/
def alice : Identity := toyIdentity "alice" 5

/-- Bob, a member Alice adds. -/
def bob : Identity := toyIdentity "bob" 9

/-- Carol, another member Alice adds. -/
def carol : Identity := toyIdentity "carol" 13

/-- Bob's key package, valid until time 100. -/
def bobKeyPackage : KeyPackage := toyKeyPackage bob 3 100

/-- Carol's key package, valid until time 100. -/
def carolKeyPackage : KeyPackage := toyKeyPackage carol 4 100

/-- A key package of Bob's whose self-signature does not verify. -/
def forgedKeyPackage : KeyPackage := { bobKeyPackage with signature := 0 }

/-- Alice's group right after `create`, with a lookahead window of 1000. -/
def aliceGroup0 : Group := create alice 42 1000

/-- Alice's call that adds Bob, at time 10 with fresh path secret 77. -/
def aliceAddsBob : AddMembersOutcome :=
  addMembers toyProvider 10 77 [] aliceGroup0 alice [bobKeyPackage]

/-- Alice's call that adds Bob and Carol at once. -/
def aliceAddsBobAndCarol : AddMembersOutcome :=
  addMembers toyProvider 10 77 [] aliceGroup0 alice [bobKeyPackage, carolKeyPackage]

/-- The commit of Alice's call that adds Bob and Carol. -/
def commitBobAndCarol : Commit :=
  { sender := 0, targetEpoch := 1, adds := [bobKeyPackage, carolKeyPackage], pathSecret := 77,
    treeHash := treeHash toyProvider [alice.credential, bob.credential, carol.credential],
    signature := toyProvider.sign alice.signingKey
      (Commit.payload 0 1 77
        (treeHash toyProvider [alice.credential, bob.credential, carol.credential])
        [bobKeyPackage, carolKeyPackage]) }

/-- The two welcomes of Alice's call that adds Bob and Carol. -/
def welcomesBobAndCarol : List Welcome :=
  [{ epoch := 1, initKey := 3, ciphertext := toyProvider.wrap 3 77,
     treeHash := treeHash toyProvider [alice.credential, bob.credential, carol.credential] },
   { epoch := 1, initKey := 4, ciphertext := toyProvider.wrap 4 77,
     treeHash := treeHash toyProvider [alice.credential, bob.credential, carol.credential] }]

/-- Alice's view of the two-member group at epoch 1: her group after the
commit that adds Bob is applied. -/
def aliceGroup1 : Group :=
  match aliceAddsBob.result with
  | .ok (commit, _) =>
    match applyCommit toyProvider aliceGroup0 commit with
    | .ok g => g
    | .error _ => aliceGroup0
  | .error _ => aliceGroup0

/-- Bob's view of the same group after joining: same epoch, roster and
secret, at leaf 1. -/
def bobGroup1 : Group := { aliceGroup1 with ownLeaf := 1 }

/-- Alice's view after she has sent 5000 messages that never reached Bob. -/
def aliceFarAhead : Group := { aliceGroup1 with generation := 5000 }

/-- The plaintext "hello". -/
def hello : Bytes := [104, 101, 108, 108, 111]

end FriendCrypt

namespace FriendCrypt

/-! ## The declared interface -/

/-- C2 (as stated, refuted): in `openmls_ffi.h` the handle type `GroupContext`
has two producers, `create_mls_group` and `complete_group_join`, so it is not
true that every handle type has exactly one; the same holds in `openmls-ffi.h`. -/
theorem group_has_two_producers :
    openmls_ffi_h.producers .GroupContext = ["create_mls_group", "complete_group_join"] ∧
    openmls_ffi_bridging_h.producers .GroupContext =
      ["create_mls_group", "complete_group_join"] ∧
    ¬ openmls_ffi_h.OneProducerOneRelease ∧
    ¬ openmls_ffi_bridging_h.OneProducerOneRelease := by
  decide

/-- C2 (amended): in both headers every one of the six handle types has
exactly one release function, its `free_*`, and at least one producer: signer,
credential and staged welcome have exactly one, group and welcome have two,
key package has one in `openmls-ffi.h` and two in `openmls_ffi.h`. -/
theorem handle_producers_and_release :
    (handleTypes.map openmls_ffi_h.releasers =
      [["free_group"], ["free_signer"], ["free_credential"], ["free_key_package"],
       ["free_welcome"], ["free_staged_welcome"]]) ∧
    (handleTypes.map openmls_ffi_bridging_h.releasers =
      [["free_group"], ["free_signer"], ["free_credential"], ["free_key_package"],
       ["free_welcome"], ["free_staged_welcome"]]) ∧
    (handleTypes.map openmls_ffi_h.producers =
      [["create_mls_group", "complete_group_join"], ["generate_credential"],
       ["generate_credential"], ["generate_key_package", "deserialize_key_package"],
       ["add_members", "deserialize_welcome"], ["create_staged_welcome"]]) ∧
    (handleTypes.map openmls_ffi_bridging_h.producers =
      [["create_mls_group", "complete_group_join"], ["generate_credential"],
       ["generate_credential"], ["generate_key_package"],
       ["add_members", "deserialize_welcome"], ["create_staged_welcome"]]) := by
  decide

/-- C3: in both headers every declared function other than the `free_*`
functions and `get_default_ciphersuite` returns `FfiResult`; `FfiResult` is
exactly `bool success` and `char* error_message`; and
`void free_error_message(FfiResult result)` is declared, once. -/
theorem fallible_operations_return_FfiResult :
    openmls_ffi_h.FallibleReturnFfiResult ∧
    openmls_ffi_bridging_h.FallibleReturnFfiResult ∧
    openmls_ffi_h.ffiResultFields = [⟨"success", val .bool⟩, ⟨"error_message", mutPtr .char⟩] ∧
    openmls_ffi_bridging_h.ffiResultFields =
      [⟨"success", val .bool⟩, ⟨"error_message", mutPtr .char⟩] ∧
    openmls_ffi_h.lookup "free_error_message" =
      [⟨"free_error_message", cvoid, [⟨"result", val .FfiResult⟩]⟩] ∧
    openmls_ffi_bridging_h.lookup "free_error_message" =
      [⟨"free_error_message", cvoid, [⟨"result", val .FfiResult⟩]⟩] := by
  decide

/-- C4: the functions that output bytes are `export_ratchet_tree`,
`serialize_welcome`, `encrypt_message`, `decrypt_message`, `send_message` and
`serialize_key_package` in `openmls_ffi.h` (the first two in `openmls-ffi.h`);
each returns them through the out-parameter pair `uint8_t** out_data,
size_t* out_len`; and each header declares `free_buffer` once, as
`void free_buffer(uint8_t* buffer, size_t len)`. -/
theorem byte_outputs_are_pointer_length_pairs :
    openmls_ffi_h.namesWhere FnDecl.outputsBytes =
      ["export_ratchet_tree", "serialize_welcome", "encrypt_message", "decrypt_message",
       "send_message", "serialize_key_package"] ∧
    openmls_ffi_bridging_h.namesWhere FnDecl.outputsBytes =
      ["export_ratchet_tree", "serialize_welcome"] ∧
    openmls_ffi_h.BytesOutAsPair ∧
    openmls_ffi_bridging_h.BytesOutAsPair ∧
    openmls_ffi_h.lookup "free_buffer" =
      [⟨"free_buffer", cvoid, [⟨"buffer", mutPtr .uint8_t⟩, ⟨"len", val .size_t⟩]⟩] ∧
    openmls_ffi_bridging_h.lookup "free_buffer" =
      [⟨"free_buffer", cvoid, [⟨"buffer", mutPtr .uint8_t⟩, ⟨"len", val .size_t⟩]⟩] ∧
    openmls_ffi_h.namesWhere
        (fun d => d.isRelease && decide (d.params.map Param.type = [mutPtr .uint8_t, val .size_t])) =
      ["free_buffer"] ∧
    openmls_ffi_bridging_h.namesWhere
        (fun d => d.isRelease && decide (d.params.map Param.type = [mutPtr .uint8_t, val .size_t])) =
      ["free_buffer"] := by
  decide

/-- C7 (as stated, refuted): `openmls-ffi.h` declares no `serialize_*` and no
`deserialize_*` function for key packages, and in both headers
`export_ratchet_tree` turns a `GroupContext` into bytes; the statement holds of
neither header. -/
theorem serialized_formats_counterexample :
    openmls_ffi_bridging_h.serializers .KeyPackageContext = [] ∧
    openmls_ffi_bridging_h.deserializers .KeyPackageContext = [] ∧
    openmls_ffi_h.toBytes .GroupContext = ["export_ratchet_tree"] ∧
    openmls_ffi_bridging_h.toBytes .GroupContext = ["export_ratchet_tree"] ∧
    ¬ openmls_ffi_bridging_h.OnlyKeyPackagesAndWelcomesSerialized ∧
    ¬ openmls_ffi_h.OnlyKeyPackagesAndWelcomesSerialized := by
  decide

/-- C7 (amended): the handle types with both a `serialize_*` and a
`deserialize_*` function are exactly `KeyPackageContext` and `WelcomeContext`
in `openmls_ffi.h` and exactly `WelcomeContext` in `openmls-ffi.h`; in both
headers no function turns bytes into a group, signer or credential, none turns
a signer or credential into bytes, and the one function that turns a group
into bytes is `export_ratchet_tree`. -/
theorem serialized_formats :
    openmls_ffi_h.serializable = [.KeyPackageContext, .WelcomeContext] ∧
    openmls_ffi_bridging_h.serializable = [.WelcomeContext] ∧
    openmls_ffi_h.serializers .KeyPackageContext = ["serialize_key_package"] ∧
    openmls_ffi_h.deserializers .KeyPackageContext = ["deserialize_key_package"] ∧
    openmls_ffi_h.serializers .WelcomeContext = ["serialize_welcome"] ∧
    openmls_ffi_h.deserializers .WelcomeContext = ["deserialize_welcome"] ∧
    openmls_ffi_bridging_h.serializers .WelcomeContext = ["serialize_welcome"] ∧
    openmls_ffi_bridging_h.deserializers .WelcomeContext = ["deserialize_welcome"] ∧
    ([CBase.GroupContext, CBase.SignerContext, CBase.CredentialContext].map
        openmls_ffi_h.fromBytes = [[], [], []]) ∧
    ([CBase.GroupContext, CBase.SignerContext, CBase.CredentialContext].map
        openmls_ffi_bridging_h.fromBytes = [[], [], []]) ∧
    ([CBase.GroupContext, CBase.SignerContext, CBase.CredentialContext].map
        openmls_ffi_h.toBytes = [["export_ratchet_tree"], [], []]) ∧
    ([CBase.GroupContext, CBase.SignerContext, CBase.CredentialContext].map
        openmls_ffi_bridging_h.toBytes = [["export_ratchet_tree"], [], []]) := by
  decide

/-- C8: both headers declare `uint32_t get_default_ciphersuite(void)`; in
`openmls-ffi.h` `generate_credential` and `generate_key_package` each take a
`uint32_t ciphersuite_id` and they are the only functions that do; in
`openmls_ffi.h` no function takes a ciphersuite id. -/
theorem ciphersuite_selection_differs :
    openmls_ffi_h.lookup "get_default_ciphersuite" =
      [⟨"get_default_ciphersuite", val .uint32_t, []⟩] ∧
    openmls_ffi_bridging_h.lookup "get_default_ciphersuite" =
      [⟨"get_default_ciphersuite", val .uint32_t, []⟩] ∧
    openmls_ffi_bridging_h.namesWhere
        (fun d => d.params.any fun p => decide (p = ⟨"ciphersuite_id", val .uint32_t⟩)) =
      ["generate_credential", "generate_key_package"] ∧
    openmls_ffi_bridging_h.namesWhere
        (fun d => d.params.any fun p => decide (p.type.root = .uint32_t)) =
      ["generate_credential", "generate_key_package"] ∧
    openmls_ffi_h.TakesNoCiphersuite := by
  decide

/-- C10: in both headers the non-release functions that take a group as
input are `add_members`, `merge_pending_commit`, `export_ratchet_tree` (and,
in `openmls_ffi.h`, `encrypt_message`, `decrypt_message`, `send_message`);
`export_ratchet_tree` takes it as `const GroupContext*` and every other one
as `GroupContext*`; and every signer, credential, key-package and welcome
input of a non-release function is a pointer to const. -/
theorem const_separates_readers_from_mutators :
    openmls_ffi_h.groupTaking.map FnDecl.name =
      ["add_members", "merge_pending_commit", "export_ratchet_tree", "encrypt_message",
       "decrypt_message", "send_message"] ∧
    openmls_ffi_bridging_h.groupTaking.map FnDecl.name =
      ["add_members", "merge_pending_commit", "export_ratchet_tree"] ∧
    openmls_ffi_h.GroupConstOnlyForExport ∧
    openmls_ffi_bridging_h.GroupConstOnlyForExport ∧
    openmls_ffi_h.HandleInputsConst ∧
    openmls_ffi_bridging_h.HandleInputsConst := by
  decide

end FriendCrypt

namespace FriendCrypt

/-! ## The operations behind the prototypes: message round trip -/

/-- The receiver of a two-member group knows the sender's leaf. -/
theorem TwoMemberGroup.sender_known {sender receiver : Group}
    (h : TwoMemberGroup sender receiver) : ¬ receiver.roster.length ≤ sender.ownLeaf := by
  have h2 := h.two_members
  have hl := h.sender_leaf
  rw [h.roster_eq] at h2
  omega

/-- The receiver of a two-member group has not consumed the generation the
sender will use next. -/
theorem TwoMemberGroup.next_generation_fresh {sender receiver : Group}
    (h : TwoMemberGroup sender receiver) :
    (sender.ownLeaf, sender.generation) ∉ receiver.consumed := by
  intro hc
  have := h.consumed_sent _ hc
  omega

/-- Two views that agree on epoch, roster and secret, sit at the two leaves
and of which the receiver has consumed nothing yet form a two-member group. -/
theorem TwoMemberGroup.of_fresh {sender receiver : Group}
    (he : sender.epoch = receiver.epoch) (hr : sender.roster = receiver.roster)
    (hs : sender.epochSecret = receiver.epochSecret) (h2 : sender.roster.length = 2)
    (hsl : sender.ownLeaf < 2) (hrl : receiver.ownLeaf < 2)
    (hd : sender.ownLeaf ≠ receiver.ownLeaf) (hc : receiver.consumed = []) :
    TwoMemberGroup sender receiver :=
  ⟨he, hr, hs, h2, hsl, hrl, hd, by intro n hn; simp [hc] at hn⟩

/-- A message sent leaves the two views a two-member group, whatever
becomes of it. -/
theorem TwoMemberGroup.after_send (P : Provider) {sender receiver : Group}
    (signer : Identity) (m : Bytes) (h : TwoMemberGroup sender receiver) :
    TwoMemberGroup (encrypt P sender signer m).1 receiver :=
  ⟨h.epoch_eq, h.roster_eq, h.secret_eq, h.two_members, h.sender_leaf, h.receiver_leaf,
    h.distinct, fun n hn => Nat.lt_succ_of_lt (h.consumed_sent n hn)⟩

/-- Sending a message that the receiver then passes to `decrypt` keeps the
two views a two-member group, whether the message is accepted or rejected,
so the next message can be exchanged in turn. -/
theorem TwoMemberGroup.after_exchange (P : Provider) {sender receiver : Group}
    (signer : Identity) (m : Bytes) (h : TwoMemberGroup sender receiver) :
    TwoMemberGroup (encrypt P sender signer m).1
      (decrypt P receiver (encrypt P sender signer m).2).group := by
  have h1 := h.sender_known
  have h2 := h.next_generation_fresh
  have h3 : sender.epoch = receiver.epoch := h.epoch_eq
  have h4 : receiver.epochSecret = sender.epochSecret := h.secret_eq.symm
  by_cases hw : receiver.position sender.ownLeaf + receiver.lookahead ≤ sender.generation
  · have hg : (decrypt P receiver (encrypt P sender signer m).2).group = receiver := by
      simp [decrypt, encrypt, h1, h2, h3, hw]
    rw [hg]
    exact h.after_send P signer m
  · refine ⟨?_, ?_, ?_, ?_, ?_, ?_, ?_, ?_⟩
    · simp [decrypt, encrypt, h1, h2, h3, h4, hw, P.aead_roundtrip]
    · simp [decrypt, encrypt, h1, h2, h3, h4, hw, P.aead_roundtrip, h.roster_eq]
    · simp [decrypt, encrypt, h1, h2, h3, h4, hw, P.aead_roundtrip]
    · simpa [encrypt] using h.two_members
    · simpa [encrypt] using h.sender_leaf
    · simpa [decrypt, encrypt, h1, h2, h3, h4, hw, P.aead_roundtrip] using h.receiver_leaf
    · simpa [decrypt, encrypt, h1, h2, h3, h4, hw, P.aead_roundtrip] using h.distinct
    · intro n hn
      simp only [decrypt, encrypt, h1, h2, h3, h4, hw, P.aead_roundtrip, if_false, ne_eq,
        not_true_eq_false, List.mem_cons, Prod.mk.injEq, true_and] at hn
      simp only [encrypt]
      rcases hn with hn | hn
      · omega
      · have := h.consumed_sent n hn
        omega

/-- C1 (as stated, refuted): Alice and Bob hold the same two-member group at
epoch 1, but Alice has sent 5000 messages that never reached Bob, whose
lookahead window is 1000; Bob's `decrypt` rejects the message `encrypt`
produces for "hello". -/
theorem decrypt_rejects_far_ahead_sender :
    TwoMemberGroup aliceFarAhead bobGroup1 ∧
    bobGroup1.lookahead = 1000 ∧
    (encrypt toyProvider aliceFarAhead alice hello).2.generation = 5000 ∧
    (decrypt toyProvider bobGroup1 (encrypt toyProvider aliceFarAhead alice hello).2).success =
      false :=
  ⟨TwoMemberGroup.of_fresh (by decide) (by decide) (by decide) (by decide) (by decide)
      (by decide) (by decide) (by decide),
    by decide, by decide, by decide⟩

/-- C1 (amended): for every plaintext and every two-member group at one
epoch, decrypting on the receiver's view the message that `encrypt` produced
on the sender's view succeeds and returns exactly the plaintext precisely when
the message's generation lies within the receiver's lookahead window, that is
fewer than `lookahead` steps past the receiver's position for the sender. -/
theorem decrypt_encrypt_within_window (P : Provider) (sender receiver : Group)
    (signer : Identity) (m : Bytes) (h : TwoMemberGroup sender receiver) :
    (decrypt P receiver (encrypt P sender signer m).2).result = .ok m ↔
      sender.generation < receiver.position sender.ownLeaf + receiver.lookahead := by
  have h1 := h.sender_known
  have h2 := h.next_generation_fresh
  have h3 : sender.epoch = receiver.epoch := h.epoch_eq
  have h4 : receiver.epochSecret = sender.epochSecret := h.secret_eq.symm
  by_cases hw : receiver.position sender.ownLeaf + receiver.lookahead ≤ sender.generation
  · have hn : ¬ sender.generation < receiver.position sender.ownLeaf + receiver.lookahead := by
      omega
    simp [decrypt, encrypt, h1, h2, h3, hw, hn]
  · have hlt : sender.generation < receiver.position sender.ownLeaf + receiver.lookahead := by
      omega
    simp [decrypt, encrypt, h1, h2, h3, h4, hw, hlt, P.aead_roundtrip]

/-- C1 (witness): Alice and Bob at epoch 1, right after Alice added Bob; Bob
decrypts Alice's "hello", her first message. -/
theorem decrypt_encrypt_hello :
    TwoMemberGroup aliceGroup1 bobGroup1 ∧
    (decrypt toyProvider bobGroup1 (encrypt toyProvider aliceGroup1 alice hello).2).result =
      .ok hello :=
  have h : TwoMemberGroup aliceGroup1 bobGroup1 :=
    TwoMemberGroup.of_fresh (by decide) (by decide) (by decide) (by decide) (by decide)
      (by decide) (by decide) (by decide)
  ⟨h, (decrypt_encrypt_within_window toyProvider aliceGroup1 bobGroup1 alice hello h).mpr
    (by decide)⟩

end FriendCrypt

namespace FriendCrypt

/-! ## The operations behind the prototypes: adding members -/

/-- A failing `addMembers` returns neither commit nor welcomes and leaves
the record of consumed key packages as it was: here a forged key package
after a valid one, an expired one, one presented a second time, one of a
member already in the group, and an empty list. -/
theorem addMembers_rejections :
    (addMembers toyProvider 10 77 [] aliceGroup0 alice [bobKeyPackage, forgedKeyPackage]).result =
      .error .InvalidKeyPackage ∧
    (addMembers toyProvider 10 77 [] aliceGroup0 alice [bobKeyPackage, forgedKeyPackage]).ledger =
      [] ∧
    (addMembers toyProvider 101 77 [] aliceGroup0 alice [bobKeyPackage]).result =
      .error .ExpiredKeyPackage ∧
    (addMembers toyProvider 10 78 aliceAddsBob.ledger aliceAddsBob.group alice
        [bobKeyPackage]).result = .error .InvalidKeyPackage ∧
    (addMembers toyProvider 10 78 [] aliceGroup0 alice [bobKeyPackage, bobKeyPackage]).result =
      .error .InvalidKeyPackage ∧
    (addMembers toyProvider 10 78 [] aliceGroup1 alice [bobKeyPackage]).result =
      .error .InvalidKeyPackage ∧
    (addMembers toyProvider 10 78 [] aliceGroup0 alice []).result = .error .ResourceMisuse := by
  refine ⟨rfl, rfl, rfl, rfl, rfl, rfl, rfl⟩

/-- The scenario of §8: Alice's group, at epoch 0 with one member, is still
so after `addMembers`; applying the returned commit takes it to epoch 1 with
the two members Alice and Bob. -/
theorem scenario_alice_adds_bob :
    aliceGroup0.epoch = 0 ∧ aliceGroup0.roster = [alice.credential] ∧
    aliceAddsBob.group = aliceGroup0 ∧
    aliceAddsBob.ledger = [bobKeyPackage] ∧
    aliceGroup1.epoch = 1 ∧
    aliceGroup1.roster = [alice.credential, bob.credential] := by
  decide

/-- C5: `addMembers` does not change the group it is given: whether it
succeeds or fails, the group after the call equals the group before.  The
group changes when the commit is separately applied: for a signer who is the
member at the group's own leaf, `applyCommit` accepts the returned commit on
that unchanged group and yields a different group, one epoch later, with the
added members appended to the roster. -/
theorem addMembers_leaves_group (P : Provider) (now entropy : Nat) (ledger : List KeyPackage)
    (g : Group) (signer : Identity) (kps : List KeyPackage) :
    (addMembers P now entropy ledger g signer kps).group = g ∧
    (g.roster[g.ownLeaf]? = some signer.credential →
      signer.credential.verificationKey = P.publicKey signer.signingKey →
      ∀ c ws, (addMembers P now entropy ledger g signer kps).result = .ok (c, ws) →
        ∃ g', applyCommit P g c = .ok g' ∧ g' ≠ g ∧ g'.epoch = g.epoch + 1 ∧
          g'.roster = g.roster ++ kps.map KeyPackage.credential) := by
  unfold addMembers
  by_cases hempty : kps.isEmpty = true
  · simp [hempty]
  · cases hck : checkKeyPackages P now g.roster ledger kps with
    | error e => simp [hempty]
    | ok u =>
      cases u
      refine ⟨by simp [hempty], ?_⟩
      intro hmember hkey c ws hres
      simp only [hempty, Bool.false_eq_true, if_false, Except.ok.injEq, Prod.mk.injEq] at hres
      obtain ⟨hc, -⟩ := hres
      refine ⟨g.advance c, ?_, ?_, rfl, ?_⟩
      · subst hc
        simp [applyCommit, hmember, hkey, P.verify_sign]
      · intro heq
        have hepoch := congrArg Group.epoch heq
        simp [Group.advance] at hepoch
      · subst hc
        rfl

/-- C6: for every call of `addMembers` with n key packages that succeeds, the
call returns the commit together with n Welcome values, one per added member
and in the order of the key packages: each is keyed to its member's init key
and carries, encrypted to that key, the path secret of the commit, for the
commit's epoch and tree; the commit adds exactly the given key packages. -/
theorem addMembers_one_welcome_per_member (P : Provider) (now entropy : Nat)
    (ledger : List KeyPackage) (g : Group) (signer : Identity) (kps : List KeyPackage)
    (c : Commit) (ws : List Welcome)
    (h : (addMembers P now entropy ledger g signer kps).result = .ok (c, ws)) :
    ws.length = kps.length ∧
    ws.map Welcome.initKey = kps.map KeyPackage.initKey ∧
    (∀ w ∈ ws, w.epoch = c.targetEpoch ∧ w.treeHash = c.treeHash ∧
      w.ciphertext = P.wrap w.initKey c.pathSecret) ∧
    c.adds = kps ∧ c.targetEpoch = g.epoch + 1 ∧ 0 < kps.length := by
  unfold addMembers at h
  by_cases hempty : kps.isEmpty = true
  · simp [hempty] at h
  · cases hck : checkKeyPackages P now g.roster ledger kps with
    | error e => simp [hempty, hck] at h
    | ok u =>
      cases u
      simp only [hempty, hck, Bool.false_eq_true, if_false, Except.ok.injEq,
        Prod.mk.injEq] at h
      obtain ⟨hc, hws⟩ := h
      subst hc
      subst hws
      refine ⟨by simp, by simp [Function.comp_def], ?_, rfl, rfl, ?_⟩
      · intro w hw
        simp only [List.mem_map] at hw
        obtain ⟨kp, -, rfl⟩ := hw
        exact ⟨rfl, rfl, rfl⟩
      · cases kps with
        | nil => simp at hempty
        | cons kp rest => simp

/-- C6 (witness): Alice adds Bob and Carol in one call; the call returns the
commit and two welcomes, Bob's and Carol's. -/
theorem addMembers_bob_and_carol :
    aliceAddsBobAndCarol.result = .ok (commitBobAndCarol, welcomesBobAndCarol) ∧
    welcomesBobAndCarol.length = [bobKeyPackage, carolKeyPackage].length ∧
    welcomesBobAndCarol.map Welcome.initKey =
      [bobKeyPackage, carolKeyPackage].map KeyPackage.initKey ∧
    (∀ w ∈ welcomesBobAndCarol, w.epoch = commitBobAndCarol.targetEpoch ∧
      w.treeHash = commitBobAndCarol.treeHash ∧
      w.ciphertext = toyProvider.wrap w.initKey commitBobAndCarol.pathSecret) ∧
    commitBobAndCarol.adds = [bobKeyPackage, carolKeyPackage] ∧
    commitBobAndCarol.targetEpoch = aliceGroup0.epoch + 1 ∧
    0 < [bobKeyPackage, carolKeyPackage].length :=
  have h : aliceAddsBobAndCarol.result = .ok (commitBobAndCarol, welcomesBobAndCarol) := rfl
  ⟨h, addMembers_one_welcome_per_member toyProvider 10 77 [] aliceGroup0 alice
    [bobKeyPackage, carolKeyPackage] commitBobAndCarol welcomesBobAndCarol h⟩

end FriendCrypt
